import Mathlib

/-!
Verification development for the tg-report-bot repository.

The definitions below are a shallow embedding of the report-intake bot:
* `TgReportBot` embeds `telegram_api_bot.py` (the HTTP-API bot that the
  deployed system runs): its per-user session dictionary, command routing,
  category selection, report completion, admin `/respond` handler and the
  report store.
* `TgReportBot.SB` embeds `standalone_bot.py`: the handler functions
  together with the `ConversationHandler` wiring declared in its `main`
  (entry point `/report`, state handlers for category/description, and the
  `/cancel` fallback).
* The polling-loop cursor behaviour of `telegram_api_bot.TelegramBot.run` /
  `get_updates` and of `telegram_bot_runner.TelegramBot.run` is embedded as
  action traces over one loop iteration.

Side effects (outbound Telegram messages, database writes) are modelled as
explicit data: a `World` record threads the session entry of the sender, the
report table, and the ordered list of outbound dispatches.  Network and
database outcomes are supplied by an `Oracles` record.
-/

namespace TgReportBot

/-- Python truthiness of an optional integer field (`if not chat_id: ...`):
`None` and `0` are falsy. -/
def truthyInt : Option Int → Bool
  | none => false
  | some n => n != 0

/-- Python truthiness of an optional string field: `None` and `""` are falsy. -/
def truthyStr : Option String → Bool
  | none => false
  | some s => s != ""

/-- The whitespace class used by Python `str.split()` with no separator. -/
def isPySpace (c : Char) : Bool :=
  c == ' ' || c == '\t' || c == '\n' || c == '\r' || c == '\x0B' || c == '\x0C'

/-- Python `str.startswith` on explicit character lists (kernel-reducible,
unlike `String.startsWith`). -/
def pyStartsWithAux : List Char → List Char → Bool
  | _, [] => true
  | [], _ :: _ => false
  | c :: cs, p :: ps => decide (c = p) && pyStartsWithAux cs ps

/-- Python `str.startswith`. -/
def pyStartsWith (s pre : String) : Bool := pyStartsWithAux s.data pre.data

/-- Python `str.lower` on one character (ASCII, which is all the routing
compares against). -/
def pyLowerChar (c : Char) : Char :=
  if 65 ≤ c.toNat ∧ c.toNat ≤ 90 then Char.ofNat (c.toNat + 32) else c

/-- Python `str.lower`. -/
def pyLower (s : String) : String := String.mk (s.data.map pyLowerChar)

/-- Python `str.strip()`: drop leading and trailing whitespace. -/
def pyStrip (s : String) : String :=
  String.mk (((s.data.dropWhile (fun c => isPySpace c)).reverse.dropWhile
    (fun c => isPySpace c)).reverse)

/-- Take the first whitespace-delimited token of a character list, returning
the token and the unconsumed remainder (used to model `str.split(maxsplit=2)`). -/
def firstToken (cs : List Char) : Option (String × List Char) :=
  let cs2 := cs.dropWhile (fun c => isPySpace c)
  match cs2 with
  | [] => none
  | _ :: _ =>
    some (String.mk (cs2.takeWhile (fun c => !(isPySpace c))),
          cs2.dropWhile (fun c => !(isPySpace c)))

/-- Python `text.split(maxsplit=2)` (no separator argument): at most two
splits on runs of whitespace; the third element, when present, is the raw
remainder with leading whitespace removed. -/
def pySplitMax2 (s : String) : List String :=
  match firstToken s.data with
  | none => []
  | some (t1, r1) =>
    match firstToken r1 with
    | none => [t1]
    | some (t2, r2) =>
      let rem := r2.dropWhile (fun c => isPySpace c)
      match rem with
      | [] => [t1, t2]
      | _ :: _ => [t1, t2, String.mk rem]

/-- Python `text.split()` (full split on whitespace, empty tokens dropped),
used by `cmd_debug_channel`. -/
def pySplitAll (s : String) : List String :=
  let step := fun (acc : List String × List Char) (c : Char) =>
    if isPySpace c then
      match acc.2 with
      | [] => acc
      | cur => (acc.1 ++ [String.mk cur.reverse], ([] : List Char))
    else (acc.1, c :: acc.2)
  let r := s.data.foldl step ([], [])
  match r.2 with
  | [] => r.1
  | cur => r.1 ++ [String.mk cur.reverse]

/-- A Telegram user object, as read from `message["from"]`: the `id` field is
always present, `username` / `first_name` / `last_name` are optional keys
(`none` models an absent key). -/
structure TgUser where
  id : Int
  username : Option String
  first_name : Option String
  last_name : Option String
deriving DecidableEq

/-- A Telegram message as consumed by `process_command`: `chat.id`, the
optional sender object, `message.get("text", "")`,
`message.get("photo", [])` (a list of file ids) and
`message.get("caption", "")`. -/
structure TgMessage where
  chatId : Option Int
  fromUser : Option TgUser
  text : String
  photo : List String
  caption : String
deriving DecidableEq

/-- A callback query as consumed by `process_callback_query`:
`callback_query.message.chat.id`, `callback_query.from.id`,
`callback_query.data` and `callback_query.id`. -/
structure CallbackQuery where
  chatId : Option Int
  userId : Option Int
  data : Option String
  cbId : Option String
deriving DecidableEq

/-- One entry of the `user_states` dictionary of `telegram_api_bot.py`:
the `state` int plus the optional `category` and `message_data` keys. -/
structure SessionRec where
  state : Nat
  category : Option String := none
  message_data : Option TgMessage := none
deriving DecidableEq

/-- A row of the `report` table (`save_report` insert): `user_id` is the
Telegram sender id (`none` models Python `None`), `status` defaults to
`"Pending"` as in the schema. -/
structure Report where
  id : Nat
  user_id : Option Int
  username : String
  category : String
  description : String
  status : String := "Pending"
deriving DecidableEq

/-- An outbound dispatch through the Telegram API: `send_message`,
`send_photo_to_channel` / `send_photo`, or `answer_callback_query`. -/
inductive Effect where
  | sendMessage (chat_id : String) (text : String)
  | sendPhoto (chat_id : String) (file_id : String) (caption : String)
  | answerCallback (cb : Option String)
deriving DecidableEq

/-- The mutable state an event touches: the sender's `user_states` entry,
the `report` table (in insertion order), and the outbound dispatches made
so far (in order). -/
structure World where
  session : Option SessionRec
  reports : List Report
  out : List Effect
deriving DecidableEq

/-- Environment outcomes: whether the database insert succeeds, whether
`send_to_channel` reports ok, whether the two photo dispatches of the
`/respond` photo path succeed, whether the `/debug_channel` test send
succeeds, and the formatted `datetime.now(...)` timestamp string. -/
structure Oracles where
  storeOk : Bool
  relayOk : Bool
  photoUserOk : Bool
  photoChanOk : Bool
  debugOk : Bool
  now : String
deriving DecidableEq

/-- `STATE_IDLE` of `telegram_api_bot.py`. -/
def STATE_IDLE : Nat := 0

/-- `STATE_AWAITING_CATEGORY` of `telegram_api_bot.py`. -/
def STATE_AWAITING_CATEGORY : Nat := 1

/-- `STATE_AWAITING_DESCRIPTION` of `telegram_api_bot.py`. -/
def STATE_AWAITING_DESCRIPTION : Nat := 2

/-- The report forward channel id (`CHANNEL_ID`). -/
def CHANNEL_ID : String := "-1002544234044"

/-- The admin-response audit channel id (`RESPONSE_CHANNEL_ID`; `cmd_respond`
inlines the same literal). -/
def RESPONSE_CHANNEL_ID : String := "-1002326727802"

/-- The configured category list (`CATEGORIES` of `telegram_api_bot.py`). -/
def CATEGORIES : List String := ["Discord Items", "Premiums"]

/-- Render an optional integer the way a Python f-string renders the value
(`None` prints as `"None"`). -/
def userStr : Option Int → String
  | none => "None"
  | some n => toString n

/-- The `/start` greeting of `cmd_start` (`\x27` escapes stand for the
apostrophe character). -/
def startText (uname : String) : String :=
  "🩰⠀hello <b>@" ++ uname ++ "</b>!\n\n" ++
  "⠀⠀This is the report bot for @xnnprems.\n" ++
  "⠀⠀⠀for updates, join our main channel\n\n" ++
  "<b>report</b> - to report a problem with your purchase\n" ++
  "<b>refund</b> - to request a refund of your purchase\n\n" ++
  "❗️⠀<b>reminders:</b>\n" ++
  "⠀.⠀make sure that the informations you provided\n" ++
  "⠀⠀are correct and true\n" ++
  "⠀.⠀refunds will only be given if we can no longer\n" ++
  "⠀⠀ fix the premium acc you purchased\n" ++
  "⠀.⠀do not request a refund if hindi ka namin\n" ++
  "⠀⠀ sinabihan"

/-- The category-selection prompt sent by `cmd_report`. -/
def reportPromptText : String :=
  "Let\x27s start your report. First, please select the category that best describes your issue:"

/-- The `"Discord Items"` form sent by `process_category`. -/
def discordFormText : String :=
  "🩰⠀<b>Discord Report Form</b>\n\n" ++
  "<code>discord username:</code>\n" ++
  "<code>item purchased:</code>\n" ++
  "<code>date of purchase:</code>\n" ++
  "<code>issue description:</code>\n\n" ++
  "❗️ Please fill out all fields in your response"

/-- The `"Premiums"` form sent by `process_category`. -/
def premiumFormText : String :=
  "🩰⠀<b>Premium Report Form</b>\n\n" ++
  "<code>⠀﹒ premium availed : </code>\n" ++
  "<code>⠀﹒ solo or shared : </code>\n" ++
  "<code>⠀﹒ price paid : </code>\n" ++
  "<code>⠀﹒ email : </code>\n" ++
  "<code>⠀﹒ password : </code>\n" ++
  "<code>⠀﹒ date reported : </code>\n" ++
  "<code>⠀﹒ days used : </code>\n" ++
  "<code>⠀﹒ remaining days : </code>\n" ++
  "<code>⠀﹒ issue : </code>\n\n" ++
  "<b>ꕀ⠀include this in your form</b>\n" ++
  "⠀✅⠀proof of vouch\n" ++
  "⠀✅⠀proof of issue"

/-- The refund form sent by `cmd_refund`. -/
def refundFormText : String :=
  "🩰⠀<b>Refund Form</b>\n\n" ++
  "<code>username:</code>\n" ++
  "<code>date of purchase:</code>\n" ++
  "<code>price paid:</code>\n" ++
  "<code>days of subscription:</code>\n" ++
  "<code>remaining days:</code>\n" ++
  "<code>gcash number:</code>\n\n" ++
  "❗️<b>note:</b> there will be an 8% or 0.80 service fee\n\n" ++
  "<b>formula:</b> price / days of sub x 0.8 x (remaining days)"

/-- The desynchronized-session recovery message of `process_description`. -/
def lostTrackText : String :=
  "Sorry, I\x27ve lost track of your report. Please start over with /report"

/-- The channel message for a `"Refund"` report (`process_description`). -/
def refundChannelMsg (rid : Nat) (uid : Option Int) (uname desc now : String) : String :=
  "🩰⠀ <b>Refund Request</b>\n\n" ++
  "<b>Report ID:</b> xnn_" ++ toString rid ++ "\n" ++
  "<b>Submitted:</b> " ++ now ++ "\n\n" ++
  "<b>Requested by:</b> <a href=\x27tg://user?id=" ++ userStr uid ++ "\x27>@" ++ uname ++ "</a>\n" ++
  "<b>User ID:</b> " ++ userStr uid ++ "\n\n" ++
  "<b>Details:</b>\n" ++ desc

/-- The channel message for a non-refund report (`process_description`). -/
def reportChannelMsg (category : String) (rid : Nat) (uid : Option Int) (uname desc now : String) : String :=
  "🩰⠀ <b>" ++ category ++ " Report</b>\n\n" ++
  "<b>Report ID:</b> xnn_" ++ toString rid ++ "\n" ++
  "<b>Submitted:</b> " ++ now ++ "\n\n" ++
  "<b>Reported by:</b> <a href=\x27tg://user?id=" ++ userStr uid ++ "\x27>@" ++ uname ++ "</a>\n" ++
  "<b>User ID:</b> " ++ userStr uid ++ "\n\n" ++
  "<b>Details:</b>\n" ++ desc

/-- The `channel_msg` selection in `process_description`. -/
def channelMsgFor (category : String) (rid : Nat) (uid : Option Int) (uname desc now : String) : String :=
  if category == "Refund" then refundChannelMsg rid uid uname desc now
  else reportChannelMsg category rid uid uname desc now

/-- The fixed prefix of the generic success confirmation. -/
def successPrefixText : String :=
  "✅ Your report has been submitted successfully!\n\n<b>Report ID:</b> <tg-spoiler>xnn_"

/-- The fixed suffix of the generic success confirmation. -/
def successSuffixText : String :=
  "</tg-spoiler>\n\n" ++
  "❗ <b>reminders:</b>\n" ++
  "⠀﹒ do not spam the admins for updates\n" ++
  "⠀﹒ no update means, hindi pa na ayos report mo\n" ++
  "⠀﹒ 5-7 days or up waiting time for reports\n"

/-- The generic success confirmation (`success_msg` in `process_description`). -/
def successText (rid : Nat) : String :=
  successPrefixText ++ toString rid ++ successSuffixText

/-- The saved-but-not-forwarded failure message (`error_msg` in
`process_description`). -/
def forwardFailText : String :=
  "❌ There was an issue forwarding your report to our admins.\n" ++
  "Please try again later or contact support directly."

/-- The store-write failure message of `process_description`. -/
def saveFailText : String :=
  "Sorry, there was an error saving your report. Please try again later."

/-- Usage guidance of the `/respond` photo path. -/
def respondUsagePhotoText : String :=
  "❌ Usage: Send photo with caption: /respond [user_id] [message]"

/-- Usage guidance of the `/respond` text path. -/
def respondUsageTextMsg : String :=
  "❌ Usage: /respond [user_id] [message]"

/-- The user-facing admin response of the `/respond` text path. -/
def adminRespUserMsg (response_text : String) : String :=
  "❗⠀<b>Admin Response:</b>\n\n" ++ response_text

/-- The caption of the user-facing admin photo response. -/
def adminRespPhotoCaption (response_text : String) : String :=
  "📬 <b>Admin Response:</b>\n\n" ++ response_text

/-- The audit-channel copy of an admin response (`channel_msg` /
`channel_caption` in `cmd_respond`). -/
def adminRespChannelMsg (target response_text : String) : String :=
  "📬 <b>Admin Response</b>\n\n" ++
  "<b>To User:</b> <a href=\x27tg://user?id=" ++ target ++ "\x27>" ++ target ++ "</a>\n" ++
  "<b>Response:</b>\n" ++ response_text

/-- Photo-path success acknowledgement to the admin. -/
def photoSentOkMsg : String := "✅ Photo response sent successfully!"

/-- Photo-path failure message to the admin. -/
def photoSentFailMsg : String := "❌ Failed to send photo response. Please try again."

/-- Text-path success acknowledgement to the admin. -/
def respSentOkMsg : String := "✅ Response sent successfully!"

/-- The debug information message of `cmd_debug_channel`. -/
def debugInfoText (chat uid : String) : String :=
  "Debug Info:\n" ++
  "• Your Chat ID: <b>" ++ chat ++ "</b>\n" ++
  "• Your User ID: <b>" ++ uid ++ "</b>\n" ++
  "• Current Channel ID setting: <b>" ++ CHANNEL_ID ++ "</b>\n\n" ++
  "To make channel forwarding work:\n" ++
  "1. Add this bot as an admin to your channel\n" ++
  "2. Make sure it has permission to post messages\n" ++
  "3. Get the channel ID (you may need to use a channel ID bot)\n\n" ++
  "You can test sending directly to a channel with:\n" ++
  "/debug_channel YOUR_CHANNEL_ID"

/-- The `/debug_channel` test message. -/
def debugTestMsg (uid now : String) : String :=
  "🧪 <b>TEST MESSAGE</b>\n\n" ++
  "This is a test message sent to verify channel connectivity.\n" ++
  "Sent by user ID: " ++ uid ++ "\n" ++
  "Timestamp: " ++ now

/-- The `/debug_channel` success acknowledgement. -/
def debugSentOkMsg (cid : String) : String :=
  "✅ Test message successfully sent to channel ID: <b>" ++ cid ++ "</b>"

/-- The `/debug_channel` failure message; the interpolated `response`
object is `None` when `send_message` fails. -/
def debugSentFailMsg (cid : String) : String :=
  "❌ Failed to send test message to channel ID: <b>" ++ cid ++ "</b>\n" ++
  "Error: None\n\n" ++
  "Possible causes:\n" ++
  "• Bot is not a channel admin\n" ++
  "• Channel ID is incorrect\n" ++
  "• Bot doesn\x27t have post permission"

/-- Append one outbound dispatch. -/
def emit (w : World) (e : Effect) : World :=
  { w with out := w.out ++ [e] }

/-- `save_report`: on success the row is appended with
`id = lastrowid = ` previous row count + 1; on a database error the
exception is caught and `None` is returned with the table unchanged. -/
def save_report (o : Oracles) (w : World) (uid : Option Int)
    (uname category description : String) : World × Option Nat :=
  if o.storeOk then
    let rid := w.reports.length + 1
    ({ w with reports := w.reports ++
        [{ id := rid, user_id := uid, username := uname,
           category := category, description := description }] },
     some rid)
  else (w, none)

/-- `send_to_channel`: always attempts the dispatch to `CHANNEL_ID`; the
boolean is whether the response came back with `ok` (relay outcome). -/
def send_to_channel (o : Oracles) (w : World) (text : String) : World × Bool :=
  (emit w (Effect.sendMessage CHANNEL_ID text), o.relayOk)

/-- The username resolution performed inside `process_description`:
`user_states[user_id].get("message_data", {}).get("from", {})
  .get("username", f"user_...")`. -/
def resolved_username (s : SessionRec) (uid : Option Int) : String :=
  let user_data := s.message_data.bind (fun m => m.fromUser)
  (user_data.bind (fun u => u.username)).getD ("user_" ++ userStr uid)

/-- `TelegramBot.process_description`: completion of a report flow.  The
draft category is read from the session; a missing session or category is
the lost-track recovery path.  On a successful store write the channel
relay is attempted and the user gets the success or the
saved-but-not-forwarded message; in every case the session is reset to
`{"state": STATE_IDLE}`. -/
def process_description (o : Oracles) (chat_id : Int) (uid : Option Int)
    (description : String) (w : World) : World :=
  let lost := fun (w : World) =>
    let w := emit w (Effect.sendMessage (toString chat_id) lostTrackText)
    { w with session := some { state := STATE_IDLE } }
  match w.session with
  | none => lost w
  | some s =>
    match s.category with
    | none => lost w
    | some category =>
      let username := resolved_username s uid
      let (w, ridOpt) := save_report o w uid username category description
      let w :=
        match ridOpt with
        | some report_id =>
          let channel_msg := channelMsgFor category report_id uid username description o.now
          let (w, ok) := send_to_channel o w channel_msg
          if ok then emit w (Effect.sendMessage (toString chat_id) (successText report_id))
          else emit w (Effect.sendMessage (toString chat_id) forwardFailText)
        | none => emit w (Effect.sendMessage (toString chat_id) saveFailText)
      { w with session := some { state := STATE_IDLE } }

/-- `TelegramBot.process_category`: the per-category follow-up prompt. -/
def process_category (chat_id : Int) (category : String) (w : World) : World :=
  if category == "Discord Items" then
    emit w (Effect.sendMessage (toString chat_id) discordFormText)
  else if category == "Premiums" then
    emit w (Effect.sendMessage (toString chat_id) premiumFormText)
  else w

/-- `TelegramBot.cmd_start`: resets the session to idle, snapshots the
message, and greets. -/
def cmd_start (chat_id : Int) (message : TgMessage) (w : World) : World :=
  let w := { w with session := some { state := STATE_IDLE, message_data := some message } }
  let uname := (message.fromUser.bind (fun u => u.username)).getD ("user")
  emit w (Effect.sendMessage (toString chat_id) (startText uname))

/-- `TelegramBot.cmd_report`: enter `STATE_AWAITING_CATEGORY`, carrying the
previous `message_data` snapshot over, and send the category prompt. -/
def cmd_report (chat_id : Int) (w : World) : World :=
  let message_data := w.session.bind (fun s => s.message_data)
  let s2 : SessionRec := { state := STATE_AWAITING_CATEGORY, message_data := message_data }
  let w := { w with session := some s2 }
  emit w (Effect.sendMessage (toString chat_id) reportPromptText)

/-- `TelegramBot.cmd_refund`: jump straight to `STATE_AWAITING_DESCRIPTION`
with draft category `"Refund"`, carrying `message_data` over. -/
def cmd_refund (chat_id : Int) (w : World) : World :=
  let message_data := w.session.bind (fun s => s.message_data)
  let s2 : SessionRec := { state := STATE_AWAITING_DESCRIPTION, category := some ("Refund"),
                           message_data := message_data }
  let w := { w with session := some s2 }
  emit w (Effect.sendMessage (toString chat_id) refundFormText)

/-- Classification of a `/respond` invocation: `ok` when both dispatches
went out, `malformed` on a usage error, `failed` when a photo dispatch
failed. -/
inductive RespondOutcome where
  | ok
  | malformed
  | failed
deriving DecidableEq

/-- The regular-text branch of `cmd_respond`: fewer than three tokens is a
usage error; otherwise the response is dispatched to the target user and
then to the audit channel (the return values of both `send_message` calls
are discarded, so neither outcome affects the flow), and the admin gets an
acknowledgement. -/
def respond_text_path (chat_id : Int) (text : String) (w : World) :
    World × RespondOutcome :=
  let parts := pySplitMax2 text
  if parts.length < 3 then
    (emit w (Effect.sendMessage (toString chat_id) respondUsageTextMsg),
     RespondOutcome.malformed)
  else
    let target_user_id := parts.getD 1 ""
    let response_text := parts.getD 2 ""
    let w := emit w (Effect.sendMessage target_user_id (adminRespUserMsg response_text))
    let w := emit w (Effect.sendMessage RESPONSE_CHANNEL_ID
      (adminRespChannelMsg target_user_id response_text))
    (emit w (Effect.sendMessage (toString chat_id) respSentOkMsg), RespondOutcome.ok)

/-- The photo branch of `cmd_respond`: a failed dispatch of the photo to
the target user raises, which is caught and reported — so the audit-channel
dispatch is *not* attempted in that case. -/
def respond_photo_path (o : Oracles) (chat_id : Int) (m : TgMessage) (w : World) :
    World × RespondOutcome :=
  let caption := m.caption
  if caption == "" || !(pyStartsWith caption ("/respond")) then
    (emit w (Effect.sendMessage (toString chat_id) respondUsagePhotoText),
     RespondOutcome.malformed)
  else
    let parts := pySplitMax2 caption
    if parts.length < 3 then
      (emit w (Effect.sendMessage (toString chat_id) respondUsagePhotoText),
       RespondOutcome.malformed)
    else
      let target_user_id := parts.getD 1 ""
      let response_text := parts.getD 2 ""
      let photo := m.photo.getLastD ("")
      let w := emit w (Effect.sendPhoto target_user_id photo
        (adminRespPhotoCaption response_text))
      if !o.photoUserOk then
        (emit w (Effect.sendMessage (toString chat_id) photoSentFailMsg),
         RespondOutcome.failed)
      else
        let w := emit w (Effect.sendPhoto RESPONSE_CHANNEL_ID photo
          (adminRespChannelMsg target_user_id response_text))
        if !o.photoChanOk then
          (emit w (Effect.sendMessage (toString chat_id) photoSentFailMsg),
           RespondOutcome.failed)
        else
          (emit w (Effect.sendMessage (toString chat_id) photoSentOkMsg),
           RespondOutcome.ok)

/-- `TelegramBot.cmd_respond`: the photo branch is taken when the update
message carries a `photo` entry, otherwise the regular text branch runs. -/
def cmd_respond (o : Oracles) (chat_id : Int) (text : String)
    (update_msg : Option TgMessage) (w : World) : World × RespondOutcome :=
  match update_msg with
  | some m =>
    if !m.photo.isEmpty then respond_photo_path o chat_id m w
    else respond_text_path chat_id text w
  | none => respond_text_path chat_id text w

/-- `TelegramBot.cmd_debug_channel` (`text.strip().split()` tokenizes the
same as `text.split()`). -/
def cmd_debug_channel (o : Oracles) (chat_id : Int) (uid : Option Int)
    (text : String) (w : World) : World :=
  let parts := pySplitAll text
  let new_channel_id := if parts.length > 1 then some (parts.getD 1 "") else none
  let w := emit w (Effect.sendMessage (toString chat_id)
    (debugInfoText (toString chat_id) (userStr uid)))
  match new_channel_id with
  | none => w
  | some cid =>
    let w := emit w (Effect.sendMessage cid (debugTestMsg (userStr uid) o.now))
    if o.debugOk then emit w (Effect.sendMessage (toString chat_id) (debugSentOkMsg cid))
    else emit w (Effect.sendMessage (toString chat_id) (debugSentFailMsg cid))

/-- `user_id in user_states and user_states[user_id]["state"] ==
STATE_AWAITING_DESCRIPTION`. -/
def sessionAwaitingDescription : Option SessionRec → Bool
  | some s => s.state == STATE_AWAITING_DESCRIPTION
  | none => false

/-- `TelegramBot.process_command`: routing of an inbound message update, in
source order: chat-id guard, photo-while-awaiting-description branch,
empty-text guard, the command prefixes, and the awaiting-description
fall-through. -/
def process_command (o : Oracles) (m : TgMessage) (w : World) : World :=
  match m.chatId with
  | none => w
  | some chat_id =>
    if chat_id == 0 then w
    else
      let uid := m.fromUser.map (fun u => u.id)
      if !m.photo.isEmpty && sessionAwaitingDescription w.session then
        let file_id := m.photo.getLastD ("")
        let w := process_description o chat_id uid
          (if m.caption != "" then m.caption else ("")) w
        emit w (Effect.sendPhoto CHANNEL_ID file_id m.caption)
      else if m.text == "" then w
      else if pyStartsWith m.text ("/start") then cmd_start chat_id m w
      else if pyStartsWith m.text ("/report") || pyLower m.text == "report" then
        cmd_report chat_id w
      else if pyStartsWith m.text ("/refund") || pyLower m.text == "refund" then
        cmd_refund chat_id w
      else if pyStartsWith m.text ("/respond") then
        (cmd_respond o chat_id m.text (some m) w).1
      else if pyStartsWith m.text ("/debug_channel") then
        cmd_debug_channel o chat_id uid m.text w
      else if sessionAwaitingDescription w.session then
        process_description o chat_id uid m.text w
      else w

/-- `TelegramBot.process_callback_query`: guard on truthy chat id, data and
user id; answer the callback; then, only while awaiting a category and only
for data in `CATEGORIES`, store the category (carrying `message_data` over)
and send the category-specific prompt. -/
def process_callback_query (cq : CallbackQuery) (w : World) : World :=
  if !(truthyInt cq.chatId) || !(truthyStr cq.data) || !(truthyInt cq.userId) then w
  else
    let chat_id := cq.chatId.getD 0
    let data := cq.data.getD ("")
    let w := emit w (Effect.answerCallback cq.cbId)
    match w.session with
    | some s =>
      if s.state == STATE_AWAITING_CATEGORY then
        if CATEGORIES.contains data then
          let message_data := s.message_data
          let s2 : SessionRec := { state := STATE_AWAITING_DESCRIPTION, category := some data,
                                   message_data := message_data }
          let w := { w with session := some s2 }
          process_category chat_id data w
        else w
      else w
    | none => w

/-- The admin console's report listing (`app.get_reports`): the stored
reports ordered newest first. -/
def listReports (store : List Report) : List Report :=
  store.reverse

/-- The texts that `process_command` routes to `cmd_report`: the chat id
guard passed, the text is non-empty, it is not caught by the earlier
`/start` branch, and it starts with `/report` or lowercases to `report`. -/
def isReportCmd (t : String) : Bool :=
  t != "" && !(pyStartsWith t ("/start")) &&
  (pyStartsWith t ("/report") || pyLower t == "report")

/-- The texts that `process_command` routes to `cmd_refund`. -/
def isRefundCmd (t : String) : Bool :=
  t != "" && !(pyStartsWith t ("/start")) &&
  !(pyStartsWith t ("/report")) && pyLower t != "report" &&
  (pyStartsWith t ("/refund") || pyLower t == "refund")

/-- A plain (non-command) message text: non-empty and matched by none of
the command branches of `process_command`. -/
def isPlainText (t : String) : Bool :=
  t != "" && !(pyStartsWith t ("/start")) &&
  !(pyStartsWith t ("/report")) && pyLower t != "report" &&
  !(pyStartsWith t ("/refund")) && pyLower t != "refund" &&
  !(pyStartsWith t ("/respond")) && !(pyStartsWith t ("/debug_channel"))

/-! ### Polling-driver cursor traces (`run` loops)

One iteration of a polling loop is abstracted to the ordered list of
cursor-relevant actions it performs: handing an update off to processing,
and assigning a new value to the cursor variable. -/

/-- A cursor-relevant action of one polling-loop iteration. -/
inductive LoopAction where
  | handoff (update_id : Int)
  | advance (value : Int)
deriving DecidableEq

/-- The last element of a batch (`updates[-1]`), `0` for an empty batch. -/
def lastId : List Int → Int
  | [] => 0
  | [i] => i
  | _ :: i :: rest => lastId (i :: rest)

/-- One iteration of `telegram_api_bot.TelegramBot.run`: `get_updates`
assigns `offset = updates[-1]["update_id"] + 1` as soon as the batch is
fetched (before returning it), and only then does `run` hand each update
off to `process_command` / `process_callback_query`. -/
def api_iter_actions : List Int → List LoopAction
  | [] => []
  | i :: rest =>
    LoopAction.advance (lastId (i :: rest) + 1) ::
      (i :: rest).map LoopAction.handoff

/-- One iteration of `telegram_bot_runner.TelegramBot.run`: each update is
processed first and `last_update_id = update.update_id` is assigned after
it. -/
def runner_iter_actions : List Int → List LoopAction
  | [] => []
  | i :: rest =>
    LoopAction.handoff i :: LoopAction.advance i :: runner_iter_actions rest

/-- The successive values assigned to the cursor variable in a trace. -/
def advance_values : List LoopAction → List Int
  | [] => []
  | LoopAction.advance c :: rest => c :: advance_values rest
  | LoopAction.handoff _ :: rest => advance_values rest

/-- For `telegram_api_bot`, the cursor variable `offset` is itself the
lower bound of the next fetch: an update id `e` is already claimed
when `e < offset`. -/
def apiClaimOf (c : Int) : Int := c

/-- For `telegram_bot_runner`, the next fetch uses
`offset = last_update_id + 1`: an update id `e` is already claimed when
`e < last_update_id + 1`. -/
def runnerClaimOf (c : Int) : Int := c + 1

/-- Scan a trace with the running claimed-bound `w` (all ids below `w` are
already claimed by the cursor): `true` iff no update is handed off after
the cursor has already been advanced past its id. -/
def no_early_advance (claimOf : Int → Int) : Int → List LoopAction → Bool
  | _, [] => true
  | _, LoopAction.advance c :: rest => no_early_advance claimOf (claimOf c) rest
  | w, LoopAction.handoff e :: rest =>
    decide (w ≤ e) && no_early_advance claimOf w rest

namespace SB

/-! ### `standalone_bot.py`

The conversation machine induced by the `ConversationHandler` wiring of
`standalone_bot.main`: entry point `CommandHandler("report")`, state
`CATEGORY` handled by a `CallbackQueryHandler` (note: *any* callback data
is accepted, there is no membership check), state `DESCRIPTION` handled by
a text-and-not-command `MessageHandler`, fallback `CommandHandler("cancel")`.
`/start` and `/help` are application-level handlers registered before the
conversation handler, so they respond in every state without touching the
conversation.  `context.user_data` survives the end of a conversation. -/

/-- The conversation position of a user: not in a conversation
(`ConversationHandler.END`), or one of the two declared states. -/
inductive SBState where
  | idle
  | category
  | description
deriving DecidableEq

/-- An `update.effective_user`: `first_name` is mandatory in the Telegram
API, `username` and `last_name` are optional. -/
structure SBUser where
  id : Int
  username : Option String
  first_name : String
  last_name : Option String
deriving DecidableEq

/-- An inbound event, already classified the way the registered handlers
match it: the recognized commands, a button callback, or a plain
(non-command) text message. -/
inductive SBEvent where
  | cmdStart
  | cmdHelp
  | cmdReport
  | cmdCancel
  | callbackSelect (data : String)
  | textMsg (text : String)
deriving DecidableEq

/-- The per-user state of the standalone bot: conversation position,
`context.user_data["category"]`, the report table and the replies sent. -/
structure SBWorld where
  state : SBState
  category : Option String
  reports : List Report
  out : List String
deriving DecidableEq

/-- The `/start` greeting of `standalone_bot.start`. -/
def sbStartText (first_name : String) : String :=
  "Hello " ++ first_name ++ "! 👋\n\n" ++
  "I\x27m the Purchase Issue Reporter Bot. I can help you report problems with your purchases.\n\n" ++
  "Use /report to start a new issue report.\n" ++
  "Use /help to see all available commands."

/-- The `/help` text of `standalone_bot.help_command`. -/
def sbHelpText : String :=
  "Here are the available commands:\n\n" ++
  "/start - Start the bot\n" ++
  "/report - Report a new purchase issue\n" ++
  "/cancel - Cancel the current operation\n" ++
  "/help - Show this help message"

/-- The category prompt of `standalone_bot.start_report`. -/
def sbCategoryPrompt : String :=
  "Let\x27s start your report. First, please select the category that best describes your issue:"

/-- The description prompt of `standalone_bot.category_selected`. -/
def sbSelectedText (category : String) : String :=
  "You selected: " ++ category ++ "\n\n" ++
  "Now, please provide a detailed description of the issue. Include relevant information like:\n" ++
  "- Order number (if applicable)\n" ++
  "- Date of purchase\n" ++
  "- What exactly went wrong\n\n" ++
  "Type your description below:"

/-- The cancellation acknowledgement of `standalone_bot.cancel`. -/
def sbCancelText : String :=
  "Report process cancelled. If you want to submit a report later, use the /report command."

/-- Render an optional value as a Python f-string does (`None`). -/
def optNatStr : Option Nat → String
  | none => "None"
  | some n => toString n

/-- The submission confirmation of `standalone_bot.report_description`. -/
def sbThanksText (rid : Option Nat) (category : Option String) : String :=
  "Thank you! Your report (ID: " ++ optNatStr rid ++ ") has been submitted successfully.\n\n" ++
  "Category: " ++ category.getD ("None") ++ "\n" ++
  "Our team will review your issue and take appropriate action. If needed, we may contact you for additional information.\n\n" ++
  "You can submit another report using the /report command."

/-- The username resolution of `standalone_bot.report_description`:
`user.username`, falling back (also for an empty-string handle, via Python
truthiness) to `f"[first_name] [last_name or '']".strip()`. -/
def sb_username (u : SBUser) : String :=
  let fallback := pyStrip (u.first_name ++ " " ++ (u.last_name.getD ("")))
  match u.username with
  | some handle => if handle == "" then fallback else handle
  | none => fallback

/-- `standalone_bot.report_description`: reads the draft category from
`context.user_data` (no presence check — a missing category is passed as
SQL `NULL` and the `NOT NULL` constraint makes the insert fail, which
`save_report` turns into `None`), saves, confirms, and ends the
conversation. -/
def sb_report_description (o : Oracles) (u : SBUser) (description : String)
    (w : SBWorld) : SBWorld :=
  let category := w.category
  let username := sb_username u
  let saved : List Report × Option Nat :=
    match category with
    | some cat =>
      if o.storeOk then
        (w.reports ++
          [{ id := w.reports.length + 1, user_id := some u.id, username := username,
             category := cat, description := description }],
         some (w.reports.length + 1))
      else (w.reports, none)
    | none => (w.reports, none)
  { w with state := SBState.idle, reports := saved.1,
           out := w.out ++ [sbThanksText saved.2 category] }

/-- One dispatch step of the standalone bot application. -/
def sb_step (o : Oracles) (u : SBUser) (e : SBEvent) (w : SBWorld) : SBWorld :=
  match e with
  | SBEvent.cmdStart => { w with out := w.out ++ [sbStartText u.first_name] }
  | SBEvent.cmdHelp => { w with out := w.out ++ [sbHelpText] }
  | SBEvent.cmdReport =>
    match w.state with
    | SBState.idle => { w with state := SBState.category, out := w.out ++ [sbCategoryPrompt] }
    | _ => w
  | SBEvent.cmdCancel =>
    match w.state with
    | SBState.idle => w
    | _ => { w with state := SBState.idle, out := w.out ++ [sbCancelText] }
  | SBEvent.callbackSelect data =>
    match w.state with
    | SBState.category =>
      { w with state := SBState.description, category := some data,
               out := w.out ++ [sbSelectedText data] }
    | _ => w
  | SBEvent.textMsg text =>
    match w.state with
    | SBState.description => sb_report_description o u text w
    | _ => w

end SB

/-- The provider-supplied handle visible to `process_description`:
`message_data -> from -> username`. -/
def api_handle (s : SessionRec) : Option String :=
  (s.message_data.bind (fun m => m.fromUser)).bind (fun u => u.username)

/-! ### Concrete fixtures used by witnesses and counterexamples -/

/-- Environment where every outcome succeeds. -/
def oAllOk : Oracles :=
  { storeOk := true, relayOk := true, photoUserOk := true,
    photoChanOk := true, debugOk := true, now := "2025-01-01 00:00:00" }

/-- Environment where only the channel relay fails. -/
def oRelayFail : Oracles := { oAllOk with relayOk := false }

/-- Environment where only the photo dispatch to the target user fails. -/
def oPhotoUserFail : Oracles := { oAllOk with photoUserOk := false }

/-- A sender with names but no handle. -/
def uAlice : TgUser :=
  { id := 7, username := none, first_name := some ("Alice"), last_name := some ("Smith") }

/-- A sender with a handle. -/
def uBob : TgUser :=
  { id := 8, username := some ("bobby"), first_name := some ("Bob"), last_name := none }

/-- A `/start` message from `uAlice` (the `message_data` snapshot). -/
def mStartAlice : TgMessage :=
  { chatId := some 10, fromUser := some uAlice, text := "/start", photo := [], caption := "" }

/-- The empty world: no session entry, no reports, no dispatches. -/
def w0 : World := { session := none, reports := [], out := [] }

/-- A world whose session awaits a description for category `"Premiums"`
with `uAlice`'s start snapshot. -/
def wAwaitDescAlice : World :=
  { session := some { state := STATE_AWAITING_DESCRIPTION, category := some ("Premiums"),
                      message_data := some mStartAlice },
    reports := [], out := [] }

/-- A world whose session awaits a category selection. -/
def wAwaitCat : World :=
  { session := some { state := STATE_AWAITING_CATEGORY, category := none,
                      message_data := some mStartAlice },
    reports := [], out := [] }

/-- A photo `/respond` update with a well-formed caption. -/
def mRespondPhoto : TgMessage :=
  { chatId := some 1, fromUser := none, text := "", photo := ["f1"],
    caption := "/respond 555 refund approved" }

/-- A `/cancel` text message from `uAlice`. -/
def mCancelAlice : TgMessage :=
  { chatId := some 10, fromUser := some uAlice, text := "/cancel", photo := [], caption := "" }

/-- A plain description text message from `uAlice`. -/
def mDescAlice : TgMessage :=
  { chatId := some 10, fromUser := some uAlice, text := "my premium stopped working",
    photo := [], caption := "" }

/-- The standalone-bot counterpart of `uAlice` (no handle). -/
def sbAlice : SB.SBUser :=
  { id := 7, username := none, first_name := "Alice", last_name := some ("Smith") }

/-- A standalone-bot user with a handle. -/
def sbBob : SB.SBUser :=
  { id := 8, username := some ("bobby"), first_name := "Bob", last_name := none }

/-! ## Helper lemmas -/

theorem process_category_session (c : Int) (cat : String) (w : World) :
    (process_category c cat w).session = w.session := by
  unfold process_category
  split_ifs <;> rfl

theorem process_category_reports (c : Int) (cat : String) (w : World) :
    (process_category c cat w).reports = w.reports := by
  unfold process_category
  split_ifs <;> rfl

/-- Unfolding `resolved_username` through `api_handle`. -/
theorem resolved_username_eq (s : SessionRec) (uid : Option Int) :
    resolved_username s uid = (api_handle s).getD ("user_" ++ userStr uid) := rfl

/-- A plain (non-command) text while the session awaits a category falls
through every branch of `process_command`: nothing at all happens. -/
theorem plain_text_in_category_noop
    (o : Oracles) (m : TgMessage) (w : World) (s : SessionRec)
    (hs : w.session = some s) (hstate : s.state = STATE_AWAITING_CATEGORY)
    (hp : isPlainText m.text = true) :
    process_command o m w = w := by
  have hAD : sessionAwaitingDescription w.session = false := by
    rw [hs]
    simp [sessionAwaitingDescription, hstate, STATE_AWAITING_CATEGORY,
      STATE_AWAITING_DESCRIPTION]
  simp only [isPlainText, Bool.and_eq_true] at hp
  obtain ⟨⟨⟨⟨⟨⟨⟨h1, h2⟩, h3⟩, h4⟩, h5⟩, h6⟩, h7⟩, h8⟩ := hp
  simp only [Bool.not_eq_true'] at h2 h3 h5 h7 h8
  simp only [bne_iff_ne, ne_eq] at h1 h4 h6
  unfold process_command
  cases hm : m.chatId with
  | none => rfl
  | some chat =>
    by_cases h0 : chat = 0
    · subst h0; simp
    · simp [h0, hAD, h1, h2, h3, h4, h5, h6, h7, h8]

/-- A plain text while the session awaits a description routes to
`process_description`. -/
theorem plain_text_describe_route
    (o : Oracles) (m : TgMessage) (w : World) (chat : Int)
    (hc : m.chatId = some chat) (h0 : chat ≠ 0)
    (hp : isPlainText m.text = true)
    (hAD : sessionAwaitingDescription w.session = true)
    (hphoto : m.photo = []) :
    process_command o m w =
      process_description o chat (m.fromUser.map (fun u => u.id)) m.text w := by
  simp only [isPlainText, Bool.and_eq_true] at hp
  obtain ⟨⟨⟨⟨⟨⟨⟨h1, h2⟩, h3⟩, h4⟩, h5⟩, h6⟩, h7⟩, h8⟩ := hp
  simp only [Bool.not_eq_true'] at h2 h3 h5 h7 h8
  simp only [bne_iff_ne, ne_eq] at h1 h4 h6
  unfold process_command
  rw [hc]
  simp [h0, hAD, hphoto, h1, h2, h3, h4, h5, h6, h7, h8]

/-- A start-report command routes to `cmd_report`. -/
theorem report_cmd_route
    (o : Oracles) (m : TgMessage) (w : World) (chat : Int)
    (hc : m.chatId = some chat) (h0 : chat ≠ 0)
    (ht : isReportCmd m.text = true)
    (hAD : sessionAwaitingDescription w.session = false) :
    process_command o m w =
      { w with
        session := some { state := STATE_AWAITING_CATEGORY, category := none,
                          message_data := w.session.bind (fun s => s.message_data) },
        out := w.out ++ [Effect.sendMessage (toString chat) reportPromptText] } := by
  simp only [isReportCmd, Bool.and_eq_true] at ht
  obtain ⟨⟨h1, h2⟩, h3⟩ := ht
  simp only [Bool.not_eq_true'] at h2
  simp only [bne_iff_ne, ne_eq] at h1
  simp only [Bool.or_eq_true, beq_iff_eq] at h3
  unfold process_command
  rw [hc]
  simp [h0, hAD, h1, h2, h3, cmd_report, emit]

/-- A refund command routes to `cmd_refund` from any session state (for a
message without photo). -/
theorem refund_cmd_route
    (o : Oracles) (m : TgMessage) (w : World) (chat : Int)
    (hc : m.chatId = some chat) (h0 : chat ≠ 0)
    (ht : isRefundCmd m.text = true) (hphoto : m.photo = []) :
    process_command o m w =
      { w with
        session := some { state := STATE_AWAITING_DESCRIPTION, category := some ("Refund"),
                          message_data := w.session.bind (fun s => s.message_data) },
        out := w.out ++ [Effect.sendMessage (toString chat) refundFormText] } := by
  simp only [isRefundCmd, Bool.and_eq_true] at ht
  obtain ⟨⟨⟨⟨h1, h2⟩, h3⟩, h4⟩, h5⟩ := ht
  simp only [Bool.not_eq_true'] at h2 h3
  simp only [bne_iff_ne, ne_eq] at h1 h4
  simp only [Bool.or_eq_true, beq_iff_eq] at h5
  unfold process_command
  rw [hc]
  simp [h0, hphoto, h1, h2, h3, h4, h5, cmd_refund, emit]

/-- Completion with a draft category and a successful store write: the
session resets to idle and exactly the expected row is appended. -/
theorem process_description_complete
    (o : Oracles) (chat : Int) (uid : Option Int) (d : String) (w : World)
    (s : SessionRec) (cat : String)
    (hs : w.session = some s) (hcat : s.category = some cat)
    (hstore : o.storeOk = true) :
    (process_description o chat uid d w).session = some { state := STATE_IDLE } ∧
    (process_description o chat uid d w).reports =
      w.reports ++ [{ id := w.reports.length + 1, user_id := uid,
                      username := resolved_username s uid, category := cat,
                      description := d }] := by
  unfold process_description save_report send_to_channel
  rw [hs]
  cases hrelay : o.relayOk <;> simp [hcat, hstore, hrelay, emit]

/-- Completion when the store write succeeds but the relay fails: the full
resulting world. -/
theorem process_description_relay_fail
    (o : Oracles) (chat : Int) (uid : Option Int) (d : String) (w : World)
    (s : SessionRec) (cat : String)
    (hs : w.session = some s) (hcat : s.category = some cat)
    (hstore : o.storeOk = true) (hrelay : o.relayOk = false) :
    process_description o chat uid d w =
      { session := some { state := STATE_IDLE },
        reports := w.reports ++ [{ id := w.reports.length + 1, user_id := uid,
                                   username := resolved_username s uid, category := cat,
                                   description := d }],
        out := w.out ++
          [Effect.sendMessage CHANNEL_ID
            (channelMsgFor cat (w.reports.length + 1) uid (resolved_username s uid) d o.now),
           Effect.sendMessage (toString chat) forwardFailText] } := by
  unfold process_description save_report send_to_channel
  rw [hs]
  simp [hcat, hstore, hrelay, emit]

/-- A known-category selection while awaiting a category: answer the
callback, store the category, and send the category prompt. -/
theorem callback_select_route
    (cq : CallbackQuery) (w : World) (s : SessionRec) (cat : String)
    (hs : w.session = some s) (hstate : s.state = STATE_AWAITING_CATEGORY)
    (hq1 : truthyInt cq.chatId = true) (hq3 : truthyInt cq.userId = true)
    (hdata : cq.data = some cat) (hne : cat ≠ "")
    (hcat : CATEGORIES.contains cat = true) :
    process_callback_query cq w =
      process_category (cq.chatId.getD 0) cat
        { w with session := some { state := STATE_AWAITING_DESCRIPTION, category := some cat,
                                   message_data := s.message_data },
                 out := w.out ++ [Effect.answerCallback cq.cbId] } := by
  have hq2 : truthyStr cq.data = true := by rw [hdata]; simp [truthyStr, hne]
  have hmem : cat ∈ CATEGORIES := by simpa using hcat
  unfold process_callback_query
  simp [hq1, hq2, hq3, emit, hs, hstate, hdata, hmem, truthyStr, hne]

set_option maxRecDepth 4096 in
/-- The saved-but-not-forwarded message is never the success message. -/
theorem forwardFail_ne_success (rid : Nat) : forwardFailText ≠ successText rid := by
  intro h
  have hlen := congrArg String.length h
  rw [successText, String.length_append, String.length_append] at hlen
  have hb : forwardFailText.length < successPrefixText.length + successSuffixText.length := by
    decide
  omega

/-! ## Claims -/

/-- C6: for every session in the `AwaitingCategory` state, a button
selection whose value is not in the configured category list leaves the
session (state and draft) unchanged and creates no report. -/
theorem c6_unknown_selection_ignored
    (cq : CallbackQuery) (w : World) (s : SessionRec) (x : String)
    (hs : w.session = some s) (hstate : s.state = STATE_AWAITING_CATEGORY)
    (hdata : cq.data = some x) (hx : CATEGORIES.contains x = false) :
    (process_callback_query cq w).session = w.session ∧
    (process_callback_query cq w).reports = w.reports := by
  unfold process_callback_query
  split_ifs with hg
  · exact ⟨rfl, rfl⟩
  · have hxmem : x ∉ CATEGORIES := by simpa using hx
    refine ⟨?_, ?_⟩ <;> simp [emit, hs, hstate, hdata, hxmem]

/-- Witness for C6: selecting `"General"` (not configured) while awaiting a
category changes neither the session nor the report table. -/
theorem c6_unknown_selection_ignored_witness :
    (process_callback_query
        { chatId := some 10, userId := some 7, data := some ("General"), cbId := some ("cb1") }
        wAwaitCat).session = wAwaitCat.session ∧
    (process_callback_query
        { chatId := some 10, userId := some 7, data := some ("General"), cbId := some ("cb1") }
        wAwaitCat).reports = wAwaitCat.reports :=
  c6_unknown_selection_ignored _ wAwaitCat
    { state := STATE_AWAITING_CATEGORY, category := none, message_data := some mStartAlice }
    ("General") rfl rfl rfl (by decide)

/-- C8: for every session in the `AwaitingCategory` state, a plain text
message (a description sent without selecting a category) triggers no
completion: the world is entirely unchanged, so no report is created and
the session does not advance to `Idle`. -/
theorem c8_description_in_category_ignored
    (o : Oracles) (m : TgMessage) (w : World) (s : SessionRec)
    (hs : w.session = some s) (hstate : s.state = STATE_AWAITING_CATEGORY)
    (hp : isPlainText m.text = true) :
    process_command o m w = w :=
  plain_text_in_category_noop o m w s hs hstate hp

/-- Witness for C8 at a concrete plain text while awaiting a category. -/
theorem c8_description_in_category_ignored_witness :
    isPlainText ("my order broke") = true ∧
    process_command oAllOk
        { chatId := some 10, fromUser := some uAlice, text := "my order broke",
          photo := [], caption := "" } wAwaitCat = wAwaitCat :=
  ⟨by decide,
   c8_description_in_category_ignored oAllOk _ wAwaitCat
     { state := STATE_AWAITING_CATEGORY, category := none, message_data := some mStartAlice }
     rfl rfl (by decide)⟩

/-- C2 (amended): in the standalone bot (`standalone_bot.py`), a cancel
command from any non-`Idle` conversation state emits the cancellation
acknowledgement, returns to `Idle`, and creates no report.  The HTTP-API
bot (`telegram_api_bot.py`) has no cancel handler: in `AwaitingCategory` a
`/cancel` message changes nothing (and emits no acknowledgement), and in
`AwaitingDescription` the text `/cancel` is consumed as the report
description, creating a report. -/
theorem c2_cancel_amended :
    (∀ (o : Oracles) (u : SB.SBUser) (w : SB.SBWorld), w.state ≠ SB.SBState.idle →
        SB.sb_step o u SB.SBEvent.cmdCancel w =
          { w with state := SB.SBState.idle, out := w.out ++ [SB.sbCancelText] }) ∧
    (∀ (o : Oracles) (m : TgMessage) (w : World) (s : SessionRec),
        w.session = some s → s.state = STATE_AWAITING_CATEGORY → m.text = "/cancel" →
        process_command o m w = w) ∧
    (∀ (o : Oracles) (m : TgMessage) (w : World) (s : SessionRec) (cat : String) (chat : Int),
        w.session = some s → s.state = STATE_AWAITING_DESCRIPTION → s.category = some cat →
        m.text = "/cancel" → m.photo = [] → m.chatId = some chat → chat ≠ 0 →
        o.storeOk = true →
        ∃ r : Report, (process_command o m w).reports = w.reports ++ [r] ∧
          r.description = "/cancel") := by
  refine ⟨?_, ?_, ?_⟩
  · intro o u w hw
    cases hst : w.state with
    | idle => exact absurd hst hw
    | category => simp [SB.sb_step, hst]
    | description => simp [SB.sb_step, hst]
  · intro o m w s hs hstate htext
    exact plain_text_in_category_noop o m w s hs hstate (by rw [htext]; decide)
  · intro o m w s cat chat hs hstate hcat htext hphoto hchat h0 hstore
    have hAD : sessionAwaitingDescription w.session = true := by
      rw [hs]
      simp [sessionAwaitingDescription, hstate, STATE_AWAITING_DESCRIPTION]
    have hroute := plain_text_describe_route o m w chat hchat h0
      (by rw [htext]; decide) hAD hphoto
    have hdone := process_description_complete o chat (m.fromUser.map (fun u => u.id))
      m.text w s cat hs hcat hstore
    refine ⟨{ id := w.reports.length + 1, user_id := m.fromUser.map (fun u => u.id),
              username := resolved_username s (m.fromUser.map (fun u => u.id)),
              category := cat, description := "/cancel" }, ?_, rfl⟩
    rw [hroute, ← htext]
    exact hdone.2

/-- Witness for C2 (amended): the standalone bot cancels from the
`CATEGORY` state with the acknowledgement and no report, while the
HTTP-API bot persists a report whose description is `/cancel`. -/
theorem c2_cancel_amended_witness :
    SB.sb_step oAllOk sbAlice SB.SBEvent.cmdCancel
        { state := SB.SBState.category, category := none, reports := [], out := [] } =
      { state := SB.SBState.idle, category := none, reports := [],
        out := [SB.sbCancelText] } ∧
    ∃ r : Report, (process_command oAllOk mCancelAlice wAwaitDescAlice).reports =
        wAwaitDescAlice.reports ++ [r] ∧ r.description = "/cancel" := by
  constructor
  · exact c2_cancel_amended.1 oAllOk sbAlice _ (by decide)
  · exact c2_cancel_amended.2.2 oAllOk mCancelAlice wAwaitDescAlice
      { state := STATE_AWAITING_DESCRIPTION, category := some ("Premiums"),
        message_data := some mStartAlice }
      ("Premiums") 10 rfl rfl rfl rfl rfl rfl (by decide) rfl

/-- Counterexample to C2 as stated: from the non-`Idle` state
`AwaitingDescription` (draft category `"Premiums"`), processing the cancel
command `/cancel` in the HTTP-API bot creates a report (with `/cancel` as
its description) instead of creating none. -/
theorem c2_cancel_counterexample :
    (process_command oAllOk mCancelAlice wAwaitDescAlice).reports.map
        (fun r => (r.category, r.description)) = [("Premiums", "/cancel")] ∧
    (process_command oAllOk mCancelAlice wAwaitDescAlice).session =
      some { state := STATE_IDLE } := by
  constructor <;> rfl

/-- C5: every `/respond` invocation whose relevant text (caption for photo
updates, text otherwise) splits into fewer than three tokens is classified
`malformed`, gets exactly one usage-guidance reply to the admin chat, and
performs no other dispatch (in particular none to the target user or the
audit channel); session and reports are untouched. -/
theorem c5_malformed_respond
    (o : Oracles) (chat : Int) (text : String) (upd : Option TgMessage) (w : World)
    (htok : (pySplitMax2 (match upd with
              | some m => if !m.photo.isEmpty then m.caption else text
              | none => text)).length < 3) :
    (cmd_respond o chat text upd w).2 = RespondOutcome.malformed ∧
    ∃ u, (u = respondUsageTextMsg ∨ u = respondUsagePhotoText) ∧
      (cmd_respond o chat text upd w).1 =
        { w with out := w.out ++ [Effect.sendMessage (toString chat) u] } := by
  cases upd with
  | none =>
    refine ⟨?_, respondUsageTextMsg, Or.inl rfl, ?_⟩ <;>
      simp [cmd_respond, respond_text_path, htok, emit]
  | some m =>
    by_cases hph : m.photo.isEmpty
    · simp only [hph, Bool.not_true, Bool.false_eq_true, if_false] at htok
      refine ⟨?_, respondUsageTextMsg, Or.inl rfl, ?_⟩ <;>
        simp [cmd_respond, respond_text_path, hph, htok, emit]
    · simp only [eq_false_of_ne_true hph, Bool.not_false, if_true] at htok
      have hph' : (!m.photo.isEmpty) = true := by
        simp [eq_false_of_ne_true hph]
      by_cases hcap : m.caption = "" ∨ pyStartsWith m.caption ("/respond") = false
      · refine ⟨?_, respondUsagePhotoText, Or.inr rfl, ?_⟩ <;>
          simp [cmd_respond, respond_photo_path, hph', hcap, emit]
      · refine ⟨?_, respondUsagePhotoText, Or.inr rfl, ?_⟩ <;>
          simp [cmd_respond, respond_photo_path, hph', hcap, htok, emit]

/-- Witness for C5: `/respond 555` (two tokens) is malformed and the only
effect is the usage reply. -/
theorem c5_malformed_respond_witness :
    (cmd_respond oAllOk 1 "/respond 555" none w0).2 = RespondOutcome.malformed ∧
    ∃ u, (u = respondUsageTextMsg ∨ u = respondUsagePhotoText) ∧
      (cmd_respond oAllOk 1 "/respond 555" none w0).1 =
        { w0 with out := w0.out ++ [Effect.sendMessage (toString (1 : Int)) u] } :=
  c5_malformed_respond oAllOk 1 "/respond 555" none w0 (by decide)

/-- C3: when the store write succeeds during completion but the channel
relay dispatch fails, the report stays persisted — it appears in the
`list()` view — and the submitter receives the distinct
saved-but-not-forwarded message, which is never equal to the generic
success message. -/
theorem c3_saved_but_not_forwarded
    (o : Oracles) (chat : Int) (uid : Option Int) (d : String) (w : World)
    (s : SessionRec) (cat : String)
    (hs : w.session = some s) (hcat : s.category = some cat)
    (hstore : o.storeOk = true) (hrelay : o.relayOk = false) :
    ∃ r : Report,
      (process_description o chat uid d w).reports = w.reports ++ [r] ∧
      r ∈ listReports (process_description o chat uid d w).reports ∧
      r.category = cat ∧ r.description = d ∧
      (process_description o chat uid d w).out =
        w.out ++ [Effect.sendMessage CHANNEL_ID
                    (channelMsgFor cat r.id uid (resolved_username s uid) d o.now),
                  Effect.sendMessage (toString chat) forwardFailText] ∧
      forwardFailText ≠ successText r.id := by
  have h := process_description_relay_fail o chat uid d w s cat hs hcat hstore hrelay
  refine ⟨{ id := w.reports.length + 1, user_id := uid,
            username := resolved_username s uid, category := cat, description := d },
          ?_, ?_, rfl, rfl, ?_, forwardFail_ne_success _⟩
  · rw [h]
  · rw [h]
    simp [listReports]
  · rw [h]

/-- Witness for C3: with `uAlice`'s session and a failing relay, the
report is listed and the user message is the failure message. -/
theorem c3_saved_but_not_forwarded_witness :
    ∃ r : Report,
      (process_description oRelayFail 10 (some 7) "it broke" wAwaitDescAlice).reports =
        wAwaitDescAlice.reports ++ [r] ∧
      r ∈ listReports (process_description oRelayFail 10 (some 7) "it broke"
            wAwaitDescAlice).reports ∧
      r.category = "Premiums" ∧ r.description = "it broke" ∧
      (process_description oRelayFail 10 (some 7) "it broke" wAwaitDescAlice).out =
        wAwaitDescAlice.out ++
          [Effect.sendMessage CHANNEL_ID
            (channelMsgFor "Premiums" r.id (some 7)
              (resolved_username
                { state := STATE_AWAITING_DESCRIPTION, category := some ("Premiums"),
                  message_data := some mStartAlice } (some 7)) "it broke" oRelayFail.now),
           Effect.sendMessage (toString (10 : Int)) forwardFailText] ∧
      forwardFailText ≠ successText r.id :=
  c3_saved_but_not_forwarded oRelayFail 10 (some 7) "it broke" wAwaitDescAlice
    { state := STATE_AWAITING_DESCRIPTION, category := some ("Premiums"),
      message_data := some mStartAlice }
    ("Premiums") rfl rfl rfl rfl

/-- C7 (amended): the persisted submitter display name follows two
different policies.  In the HTTP-API bot, it is the provider handle from
the `/start` snapshot when present and otherwise the synthetic
`user_<identity>` — the first/last names are never consulted.  In the
standalone bot, it is the handle when present and non-empty, and otherwise
the stripped concatenation of first and last name — the synthetic fallback
is never produced there. -/
theorem c7_username_resolution :
    (∀ (o : Oracles) (chat : Int) (uid : Option Int) (d : String) (w : World)
        (s : SessionRec) (cat : String) (h : String),
        w.session = some s → s.category = some cat → o.storeOk = true →
        api_handle s = some h →
        ∃ r : Report, (process_description o chat uid d w).reports = w.reports ++ [r] ∧
          r.username = h) ∧
    (∀ (o : Oracles) (chat : Int) (uid : Option Int) (d : String) (w : World)
        (s : SessionRec) (cat : String),
        w.session = some s → s.category = some cat → o.storeOk = true →
        api_handle s = none →
        ∃ r : Report, (process_description o chat uid d w).reports = w.reports ++ [r] ∧
          r.username = "user_" ++ userStr uid) ∧
    (∀ (o : Oracles) (u : SB.SBUser) (d : String) (w : SB.SBWorld) (cat : String)
        (h : String),
        w.state = SB.SBState.description → w.category = some cat → o.storeOk = true →
        u.username = some h → h ≠ "" →
        ∃ r : Report, (SB.sb_step o u (SB.SBEvent.textMsg d) w).reports =
          w.reports ++ [r] ∧ r.username = h) ∧
    (∀ (o : Oracles) (u : SB.SBUser) (d : String) (w : SB.SBWorld) (cat : String),
        w.state = SB.SBState.description → w.category = some cat → o.storeOk = true →
        u.username = none →
        ∃ r : Report, (SB.sb_step o u (SB.SBEvent.textMsg d) w).reports =
          w.reports ++ [r] ∧
          r.username = pyStrip (u.first_name ++ " " ++ (u.last_name.getD ("")))) := by
  refine ⟨?_, ?_, ?_, ?_⟩
  · intro o chat uid d w s cat h hs hcat hstore hh
    have hc := process_description_complete o chat uid d w s cat hs hcat hstore
    refine ⟨_, hc.2, ?_⟩
    simp [resolved_username_eq, hh]
  · intro o chat uid d w s cat hs hcat hstore hh
    have hc := process_description_complete o chat uid d w s cat hs hcat hstore
    refine ⟨_, hc.2, ?_⟩
    simp [resolved_username_eq, hh]
  · intro o u d w cat h hw hcat hstore hh hne
    refine ⟨{ id := w.reports.length + 1, user_id := some u.id,
              username := SB.sb_username u, category := cat, description := d },
            ?_, ?_⟩
    · simp [SB.sb_step, hw, SB.sb_report_description, hcat, hstore]
    · simp [SB.sb_username, hh, hne]
  · intro o u d w cat hw hcat hstore hh
    refine ⟨{ id := w.reports.length + 1, user_id := some u.id,
              username := SB.sb_username u, category := cat, description := d },
            ?_, ?_⟩
    · simp [SB.sb_step, hw, SB.sb_report_description, hcat, hstore]
    · simp [SB.sb_username, hh]

/-- Witness for C7 (amended): `uBob`'s handle is persisted by the HTTP-API
bot, and the standalone bot persists `"Alice Smith"` for a handle-less
user. -/
theorem c7_username_resolution_witness :
    (∃ r : Report,
      (process_description oAllOk 10 (some 8) "x"
        { session := some { state := STATE_AWAITING_DESCRIPTION,
                            category := some ("Premiums"),
                            message_data := some { chatId := some 10, fromUser := some uBob,
                                                   text := "/start", photo := [],
                                                   caption := "" } },
          reports := [], out := [] }).reports = [] ++ [r] ∧ r.username = "bobby") ∧
    (∃ r : Report,
      (SB.sb_step oAllOk sbAlice (SB.SBEvent.textMsg "x")
        { state := SB.SBState.description, category := some ("Other"),
          reports := [], out := [] }).reports = [] ++ [r] ∧
      r.username = pyStrip (sbAlice.first_name ++ " " ++ (sbAlice.last_name.getD ("")))) :=
  ⟨c7_username_resolution.1 oAllOk 10 (some 8) "x" _
     { state := STATE_AWAITING_DESCRIPTION, category := some ("Premiums"),
       message_data := some { chatId := some 10, fromUser := some uBob,
                              text := "/start", photo := [], caption := "" } }
     ("Premiums") ("bobby") rfl rfl rfl rfl,
   c7_username_resolution.2.2.2 oAllOk sbAlice "x" _ ("Other") rfl rfl rfl rfl⟩

/-- Counterexample to C7 as stated: completing through the HTTP-API bot
for `uAlice` (no handle, names `"Alice"` and `"Smith"` present in the
snapshot) persists the synthetic `"user_7"`, not the trimmed
concatenation `"Alice Smith"` the claim requires when the handle is
absent. -/
theorem c7_username_counterexample :
    (process_description oAllOk 10 (some 7) "it broke" wAwaitDescAlice).reports.map
        (fun r => r.username) = ["user_7"] ∧
    pyStrip (("Alice") ++ " " ++ ("Smith")) = "Alice Smith" ∧
    ("user_7" : String) ≠ "Alice Smith" := by
  refine ⟨rfl, rfl, by decide⟩

/-- C10: for every user in any session state, the refund command jumps
straight to `AwaitingDescription` with draft category `"Refund"` (no
category selection step, and no report yet); `"Refund"` is not in the
configured category list, so a subsequently completed report is persisted
with a category outside the configured set. -/
theorem c10_refund_bypasses_categories
    (o : Oracles) (m : TgMessage) (w : World) (chat : Int)
    (hc : m.chatId = some chat) (h0 : chat ≠ 0)
    (ht : isRefundCmd m.text = true) (hphoto : m.photo = []) :
    (process_command o m w).session =
      some { state := STATE_AWAITING_DESCRIPTION, category := some ("Refund"),
             message_data := w.session.bind (fun s => s.message_data) } ∧
    CATEGORIES.contains ("Refund") = false ∧
    (process_command o m w).reports = w.reports ∧
    (∀ (m2 : TgMessage) (chat2 : Int), m2.chatId = some chat2 → chat2 ≠ 0 →
      isPlainText m2.text = true → m2.photo = [] → o.storeOk = true →
      ∃ r : Report, (process_command o m2 (process_command o m w)).reports =
          w.reports ++ [r] ∧ r.category = "Refund" ∧
          CATEGORIES.contains r.category = false) := by
  have hroute := refund_cmd_route o m w chat hc h0 ht hphoto
  refine ⟨by rw [hroute], by decide, by rw [hroute], ?_⟩
  intro m2 chat2 hc2 h02 hp2 hphoto2 hstore
  have hAD : sessionAwaitingDescription (process_command o m w).session = true := by
    rw [hroute]
    simp [sessionAwaitingDescription, STATE_AWAITING_DESCRIPTION]
  have hroute2 := plain_text_describe_route o m2 (process_command o m w) chat2
    hc2 h02 hp2 hAD hphoto2
  have hsess : (process_command o m w).session =
      some { state := STATE_AWAITING_DESCRIPTION, category := some ("Refund"),
             message_data := w.session.bind (fun s => s.message_data) } := by
    rw [hroute]
  have hdone := process_description_complete o chat2
    (m2.fromUser.map (fun u => u.id)) m2.text (process_command o m w)
    { state := STATE_AWAITING_DESCRIPTION, category := some ("Refund"),
      message_data := w.session.bind (fun s => s.message_data) }
    ("Refund") hsess rfl hstore
  refine ⟨{ id := w.reports.length + 1,
            user_id := m2.fromUser.map (fun u => u.id),
            username := resolved_username
              { state := STATE_AWAITING_DESCRIPTION, category := some ("Refund"),
                message_data := w.session.bind (fun s => s.message_data) }
              (m2.fromUser.map (fun u => u.id)),
            category := "Refund", description := m2.text }, ?_, rfl,
          (by decide : CATEGORIES.contains ("Refund") = false)⟩
  rw [hroute2, hdone.2, hroute]

/-- Witness for C10: `refund` from `uAlice`'s idle world, then a plain
description, persists a report with category `"Refund"`. -/
theorem c10_refund_bypasses_categories_witness :
    ((process_command oAllOk
        { chatId := some 10, fromUser := some uAlice, text := "refund",
          photo := [], caption := "" } w0).session =
      some { state := STATE_AWAITING_DESCRIPTION, category := some ("Refund"),
             message_data := w0.session.bind (fun s => s.message_data) }) ∧
    CATEGORIES.contains ("Refund") = false ∧
    ∃ r : Report,
      (process_command oAllOk mDescAlice
        (process_command oAllOk
          { chatId := some 10, fromUser := some uAlice, text := "refund",
            photo := [], caption := "" } w0)).reports = w0.reports ++ [r] ∧
      r.category = "Refund" ∧ CATEGORIES.contains r.category = false := by
  have h := c10_refund_bypasses_categories oAllOk
    { chatId := some 10, fromUser := some uAlice, text := "refund",
      photo := [], caption := "" } w0 10 rfl (by decide) (by decide) rfl
  exact ⟨h.1, h.2.1, h.2.2.2 mDescAlice 10 rfl (by decide) (by decide) rfl rfl⟩

/-- C1: from a fresh session (`Idle` or absent, no draft), the sequence
start-report command, selection of a configured category, then a plain
text description creates exactly one report with that category and
description, and the session returns to `Idle`. -/
theorem c1_report_flow
    (o : Oracles) (w : World) (m1 : TgMessage) (cq : CallbackQuery) (m2 : TgMessage)
    (chat : Int) (cat : String)
    (hfresh : w.session = none ∨
      ∃ md, w.session = some { state := STATE_IDLE, category := none, message_data := md })
    (h1c : m1.chatId = some chat) (h0 : chat ≠ 0)
    (h1t : isReportCmd m1.text = true)
    (hq1 : truthyInt cq.chatId = true) (hq3 : truthyInt cq.userId = true)
    (hdata : cq.data = some cat) (hcat : CATEGORIES.contains cat = true)
    (h2c : m2.chatId = some chat)
    (h2t : isPlainText m2.text = true) (h2p : m2.photo = [])
    (hstore : o.storeOk = true) :
    (process_command o m2 (process_callback_query cq (process_command o m1 w))).session =
      some { state := STATE_IDLE } ∧
    ∃ r : Report,
      (process_command o m2 (process_callback_query cq (process_command o m1 w))).reports =
        w.reports ++ [r] ∧ r.category = cat ∧ r.description = m2.text := by
  have hne : cat ≠ "" := by
    have : cat = "Discord Items" ∨ cat = "Premiums" := by simpa [CATEGORIES] using hcat
    rcases this with h | h <;> simp [h]
  have hAD0 : sessionAwaitingDescription w.session = false := by
    rcases hfresh with h | ⟨md, h⟩ <;>
      simp [h, sessionAwaitingDescription, STATE_IDLE, STATE_AWAITING_DESCRIPTION]
  have h1 := report_cmd_route o m1 w chat h1c h0 h1t hAD0
  have hsess1 : (process_command o m1 w).session =
      some { state := STATE_AWAITING_CATEGORY, category := none,
             message_data := w.session.bind (fun s => s.message_data) } := by
    rw [h1]
  have h2 := callback_select_route cq (process_command o m1 w)
    { state := STATE_AWAITING_CATEGORY, category := none,
      message_data := w.session.bind (fun s => s.message_data) }
    cat hsess1 rfl hq1 hq3 hdata hne hcat
  have hsess2 : (process_callback_query cq (process_command o m1 w)).session =
      some { state := STATE_AWAITING_DESCRIPTION, category := some cat,
             message_data := w.session.bind (fun s => s.message_data) } := by
    rw [h2, process_category_session]
  have hAD2 : sessionAwaitingDescription
      (process_callback_query cq (process_command o m1 w)).session = true := by
    rw [hsess2]
    simp [sessionAwaitingDescription, STATE_AWAITING_DESCRIPTION]
  have h3 := plain_text_describe_route o m2 (process_callback_query cq (process_command o m1 w))
    chat h2c h0 h2t hAD2 h2p
  have hdone := process_description_complete o chat (m2.fromUser.map (fun u => u.id)) m2.text
    (process_callback_query cq (process_command o m1 w))
    { state := STATE_AWAITING_DESCRIPTION, category := some cat,
      message_data := w.session.bind (fun s => s.message_data) }
    cat hsess2 rfl hstore
  have hrep2 : (process_callback_query cq (process_command o m1 w)).reports = w.reports := by
    rw [h2, process_category_reports]
    simp [h1]
  constructor
  · rw [h3]
    exact hdone.1
  · refine ⟨{ id := w.reports.length + 1,
              user_id := m2.fromUser.map (fun u => u.id),
              username := resolved_username
                { state := STATE_AWAITING_DESCRIPTION, category := some cat,
                  message_data := w.session.bind (fun s => s.message_data) }
                (m2.fromUser.map (fun u => u.id)),
              category := cat, description := m2.text }, ?_, rfl, rfl⟩
    rw [h3, hdone.2, hrep2]

/-- Witness for C1 at a concrete three-event run from the empty world. -/
theorem c1_report_flow_witness :
    (process_command oAllOk mDescAlice
        (process_callback_query
          { chatId := some 10, userId := some 7, data := some ("Premiums"),
            cbId := some ("cb1") }
          (process_command oAllOk
            { chatId := some 10, fromUser := some uAlice, text := "/report",
              photo := [], caption := "" } w0))).session = some { state := STATE_IDLE } ∧
    ∃ r : Report,
      (process_command oAllOk mDescAlice
        (process_callback_query
          { chatId := some 10, userId := some 7, data := some ("Premiums"),
            cbId := some ("cb1") }
          (process_command oAllOk
            { chatId := some 10, fromUser := some uAlice, text := "/report",
              photo := [], caption := "" } w0))).reports = w0.reports ++ [r] ∧
      r.category = "Premiums" ∧ r.description = mDescAlice.text :=
  c1_report_flow oAllOk w0
    { chatId := some 10, fromUser := some uAlice, text := "/report",
      photo := [], caption := "" }
    { chatId := some 10, userId := some 7, data := some ("Premiums"), cbId := some ("cb1") }
    mDescAlice 10 ("Premiums") (Or.inl rfl) rfl (by decide) (by decide)
    (by decide) (by decide) rfl (by decide) rfl (by decide) rfl rfl

/-- C4 (amended): in the text path of `cmd_respond`, both dispatches (to
the target user, then to the audit channel) are always attempted for a
well-formed command, whatever either outcome is (the return values are
discarded).  In the photo path the user dispatch is attempted first and,
when it fails, the audit dispatch is *skipped*; when the user dispatch
succeeds, the audit dispatch is attempted even if it then fails. -/
theorem c4_respond_dispatch_independence :
    (∀ (chat : Int) (text : String) (w : World),
        3 ≤ (pySplitMax2 text).length →
        (respond_text_path chat text w).1.out =
          w.out ++ [Effect.sendMessage ((pySplitMax2 text).getD 1 (""))
                      (adminRespUserMsg ((pySplitMax2 text).getD 2 (""))),
                    Effect.sendMessage RESPONSE_CHANNEL_ID
                      (adminRespChannelMsg ((pySplitMax2 text).getD 1 (""))
                        ((pySplitMax2 text).getD 2 (""))),
                    Effect.sendMessage (toString chat) respSentOkMsg]) ∧
    (∀ (o : Oracles) (chat : Int) (m : TgMessage) (w : World),
        o.photoUserOk = false → pyStartsWith m.caption ("/respond") = true →
        3 ≤ (pySplitMax2 m.caption).length →
        (respond_photo_path o chat m w).1.out =
          w.out ++ [Effect.sendPhoto ((pySplitMax2 m.caption).getD 1 (""))
                      (m.photo.getLastD (""))
                      (adminRespPhotoCaption ((pySplitMax2 m.caption).getD 2 (""))),
                    Effect.sendMessage (toString chat) photoSentFailMsg]) ∧
    (∀ (o : Oracles) (chat : Int) (m : TgMessage) (w : World),
        o.photoUserOk = true → pyStartsWith m.caption ("/respond") = true →
        3 ≤ (pySplitMax2 m.caption).length →
        ∃ tail, (respond_photo_path o chat m w).1.out =
          w.out ++ [Effect.sendPhoto ((pySplitMax2 m.caption).getD 1 (""))
                      (m.photo.getLastD (""))
                      (adminRespPhotoCaption ((pySplitMax2 m.caption).getD 2 (""))),
                    Effect.sendPhoto RESPONSE_CHANNEL_ID (m.photo.getLastD (""))
                      (adminRespChannelMsg ((pySplitMax2 m.caption).getD 1 (""))
                        ((pySplitMax2 m.caption).getD 2 ("")))] ++ tail) := by
  refine ⟨?_, ?_, ?_⟩
  · intro chat text w htok
    have hn : ¬ (pySplitMax2 text).length < 3 := Nat.not_lt.mpr htok
    simp [respond_text_path, emit, hn]
  · intro o chat m w ho hsw htok
    have hne : ¬ (m.caption = "") := by
      intro h
      rw [h] at hsw
      exact absurd hsw (by decide)
    have hn : ¬ (pySplitMax2 m.caption).length < 3 := Nat.not_lt.mpr htok
    simp [respond_photo_path, emit, hne, hsw, hn, ho]
  · intro o chat m w ho hsw htok
    have hne : ¬ (m.caption = "") := by
      intro h
      rw [h] at hsw
      exact absurd hsw (by decide)
    have hn : ¬ (pySplitMax2 m.caption).length < 3 := Nat.not_lt.mpr htok
    cases hchan : o.photoChanOk with
    | false =>
      refine ⟨[Effect.sendMessage (toString chat) photoSentFailMsg], ?_⟩
      simp [respond_photo_path, emit, hne, hsw, hn, ho, hchan]
    | true =>
      refine ⟨[Effect.sendMessage (toString chat) photoSentOkMsg], ?_⟩
      simp [respond_photo_path, emit, hne, hsw, hn, ho, hchan]

/-- Witness for C4 (amended) at a concrete well-formed text command and a
concrete failing photo command. -/
theorem c4_respond_dispatch_independence_witness :
    (3 ≤ (pySplitMax2 "/respond 555 Your refund was approved").length ∧
     (respond_text_path 1 "/respond 555 Your refund was approved" w0).1.out =
       w0.out ++ [Effect.sendMessage
                    ((pySplitMax2 "/respond 555 Your refund was approved").getD 1 (""))
                    (adminRespUserMsg
                      ((pySplitMax2 "/respond 555 Your refund was approved").getD 2 (""))),
                  Effect.sendMessage RESPONSE_CHANNEL_ID
                    (adminRespChannelMsg
                      ((pySplitMax2 "/respond 555 Your refund was approved").getD 1 (""))
                      ((pySplitMax2 "/respond 555 Your refund was approved").getD 2 (""))),
                  Effect.sendMessage (toString (1 : Int)) respSentOkMsg]) ∧
    (respond_photo_path oPhotoUserFail 1 mRespondPhoto w0).1.out =
      w0.out ++ [Effect.sendPhoto ((pySplitMax2 mRespondPhoto.caption).getD 1 (""))
                   (mRespondPhoto.photo.getLastD (""))
                   (adminRespPhotoCaption ((pySplitMax2 mRespondPhoto.caption).getD 2 (""))),
                 Effect.sendMessage (toString (1 : Int)) photoSentFailMsg] :=
  ⟨⟨by decide,
    c4_respond_dispatch_independence.1 1 "/respond 555 Your refund was approved" w0
      (by decide)⟩,
   c4_respond_dispatch_independence.2.1 oPhotoUserFail 1 mRespondPhoto w0 rfl
     (by decide) (by decide)⟩

/-- Counterexample to C4 as stated: a well-formed photo `/respond` whose
user dispatch fails performs the user dispatch but *no* dispatch to the
audit channel — the audit dispatch is not attempted, contradicting "the
dispatch to the audit channel is still attempted". -/
theorem c4_respond_counterexample :
    3 ≤ (pySplitMax2 mRespondPhoto.caption).length ∧
    ((cmd_respond oPhotoUserFail 1 "" (some mRespondPhoto) w0).1.out.filter
        (fun e => match e with
          | Effect.sendPhoto c _ _ => decide (c = "555")
          | _ => false)).length = 1 ∧
    ((cmd_respond oPhotoUserFail 1 "" (some mRespondPhoto) w0).1.out.filter
        (fun e => match e with
          | Effect.sendPhoto c _ _ => decide (c = RESPONSE_CHANNEL_ID)
          | Effect.sendMessage c _ => decide (c = RESPONSE_CHANNEL_ID)
          | _ => false)).length = 0 := by
  refine ⟨by decide, rfl, rfl⟩

/-! ### C9 helper lemmas -/

theorem lastId_mem : ∀ (l : List Int), l ≠ [] → lastId l ∈ l := by
  intro l
  induction l with
  | nil => intro h; exact absurd rfl h
  | cons a t ih =>
    intro _
    cases t with
    | nil => simp [lastId]
    | cons b t' =>
      rw [show lastId (a :: b :: t') = lastId (b :: t') from rfl]
      exact List.mem_cons_of_mem a (ih (by simp))

theorem le_lastId : ∀ (l : List Int), List.Pairwise (· < ·) l → ∀ x ∈ l, x ≤ lastId l := by
  intro l
  induction l with
  | nil => intro _ x hx; simp at hx
  | cons a t ih =>
    intro hp x hx
    rcases List.mem_cons.mp hx with rfl | hxt
    · cases t with
      | nil => simp [lastId]
      | cons b t' =>
        rw [show lastId (x :: b :: t') = lastId (b :: t') from rfl]
        exact le_of_lt ((List.pairwise_cons.mp hp).1 _ (lastId_mem (b :: t') (by simp)))
    · cases t with
      | nil => simp at hxt
      | cons b t' =>
        rw [show lastId (a :: b :: t') = lastId (b :: t') from rfl]
        exact ih (List.pairwise_cons.mp hp).2 x hxt

theorem advance_values_runner (ids : List Int) :
    advance_values (runner_iter_actions ids) = ids := by
  induction ids with
  | nil => rfl
  | cons i rest ih => simp [runner_iter_actions, advance_values, ih]

theorem advance_values_map_handoff (l : List Int) :
    advance_values (l.map LoopAction.handoff) = [] := by
  induction l with
  | nil => rfl
  | cons i rest ih => simp [advance_values, ih]

theorem runner_no_early (ids : List Int) :
    ∀ (last : Int), List.Pairwise (· < ·) ids → (∀ i ∈ ids, last < i) →
    no_early_advance runnerClaimOf (last + 1) (runner_iter_actions ids) = true := by
  induction ids with
  | nil => intro last _ _; rfl
  | cons i rest ih =>
    intro last hp hlb
    have h1 : last + 1 ≤ i := Int.add_one_le_iff.mpr (hlb i (by simp))
    have hrest := ih i (List.pairwise_cons.mp hp).2
      (fun e he => (List.pairwise_cons.mp hp).1 e he)
    simp [runner_iter_actions, no_early_advance, runnerClaimOf, h1, hrest]

/-- C9 (amended): for an in-order batch of update ids, the cursor value
never decreases in either polling driver; in `telegram_bot_runner` the
cursor is advanced past an update only after that update has been handed
off (no handoff of an already-claimed id ever occurs); but in
`telegram_api_bot`, `get_updates` advances the offset past *every* id of
the batch at fetch time, before any of the batch is handed off. -/
theorem c9_cursor_amended
    (offset last : Int) (ids : List Int)
    (hsort : List.Pairwise (· < ·) ids)
    (hapi : ∀ i ∈ ids, offset ≤ i)
    (hrun : ∀ i ∈ ids, last < i) :
    List.Chain' (· ≤ ·) (offset :: advance_values (api_iter_actions ids)) ∧
    List.Chain' (· ≤ ·) (last :: advance_values (runner_iter_actions ids)) ∧
    no_early_advance runnerClaimOf (last + 1) (runner_iter_actions ids) = true ∧
    (ids ≠ [] → ∃ c, api_iter_actions ids =
        LoopAction.advance c :: ids.map LoopAction.handoff ∧ ∀ i ∈ ids, i < c) := by
  refine ⟨?_, ?_, runner_no_early ids last hsort hrun, ?_⟩
  · cases ids with
    | nil => simp [api_iter_actions, advance_values]
    | cons i rest =>
      have hle : offset ≤ lastId (i :: rest) + 1 := by
        have h1 : offset ≤ i := hapi i (by simp)
        have h2 : i ≤ lastId (i :: rest) := le_lastId _ hsort i (by simp)
        omega
      have hav : advance_values (api_iter_actions (i :: rest)) =
          [lastId (i :: rest) + 1] := by
        simp [api_iter_actions, advance_values, advance_values_map_handoff]
      rw [hav]
      exact List.chain'_cons.mpr ⟨hle, List.chain'_singleton _⟩
  · rw [advance_values_runner]
    exact (List.chain'_iff_pairwise.mpr
      (List.pairwise_cons.mpr ⟨hrun, hsort⟩)).imp (fun a b hab => le_of_lt hab)
  · intro hne
    cases ids with
    | nil => exact absurd rfl hne
    | cons i rest =>
      refine ⟨lastId (i :: rest) + 1, rfl, ?_⟩
      intro x hx
      have := le_lastId (i :: rest) hsort x hx
      omega

/-- Witness for C9 (amended) at batch `[1, 2]` from cursor `0`. -/
theorem c9_cursor_amended_witness :
    List.Pairwise (· < ·) ([1, 2] : List Int) ∧
    (List.Chain' (· ≤ ·) ((0 : Int) :: advance_values (api_iter_actions [1, 2])) ∧
     List.Chain' (· ≤ ·) ((0 : Int) :: advance_values (runner_iter_actions [1, 2])) ∧
     no_early_advance runnerClaimOf ((0 : Int) + 1) (runner_iter_actions [1, 2]) = true ∧
     (([1, 2] : List Int) ≠ [] → ∃ c, api_iter_actions [1, 2] =
        LoopAction.advance c :: ([1, 2] : List Int).map LoopAction.handoff ∧
        ∀ i ∈ ([1, 2] : List Int), i < c)) :=
  ⟨by decide, c9_cursor_amended 0 0 [1, 2] (by decide) (by decide) (by decide)⟩

/-- Counterexample to C9 as stated: in `telegram_api_bot`, for the batch
`[5]` fetched at offset `0`, the offset is advanced to `6` — past update
`5` — *before* that update is handed off, so the cursor is not advanced
only after hand-off. -/
theorem c9_cursor_counterexample :
    api_iter_actions [5] = [LoopAction.advance 6, LoopAction.handoff 5] ∧
    no_early_advance apiClaimOf 0 (api_iter_actions [5]) = false :=
  ⟨rfl, rfl⟩

end TgReportBot
